import Mathlib

/-!
A shallow embedding of `src/ros/src/twist_controller/dbw_node.py` (class
`DBWNode`): the drive-by-wire control loop of the repository.

Modelling conventions:
* Python floats are modelled as `ℚ`; message payloads carry the fields the
  callbacks actually read (e.g. `msg.twist.linear.x` becomes the `lin`
  argument of `twist_cmd_cb`).
* The `Controller` collaborator (`self.controller.control`) is opaque: every
  loop definition is parametric in a function `Controller`
  (`ControlArgs → ℚ × ℚ × ℚ` returning `(throttle, brake, angle)`).
* The clock `rospy.rostime.get_time()` is an external input: each tick event
  carries the value `now` that the call returns on that iteration.  ROS time
  is wall-clock (or simulated) time, so the embedding places no monotonicity
  assumption on consecutive readings.
* Inbound ROS messages are delivered by callbacks; a run is a list of events,
  each event either a message delivery or one loop iteration (a tick).
  Message deliveries are interleaved between ticks.
* The pose payload is abstract (`ℚ`) and a waypoint list is `List ℚ`: the
  node never inspects either, it only stores them.
-/

namespace DBW

/-- The eleven `rospy.get_param` configuration values read in
`DBWNode.__init__` (lines 42-52). -/
structure Params where
  vehicle_mass : ℚ
  fuel_capacity : ℚ
  brake_deadband : ℚ
  decel_limit : ℚ
  accel_limit : ℚ
  wheel_radius : ℚ
  wheel_base : ℚ
  steer_ratio : ℚ
  max_lat_accel : ℚ
  max_steer_angle : ℚ
  min_speed : ℚ
deriving DecidableEq, Repr

/-- The default value of each parameter, exactly as written in the source. -/
def defaultParams : Params where
  vehicle_mass := 1736.35
  fuel_capacity := 13.5
  brake_deadband := 0.1
  decel_limit := -5
  accel_limit := 1
  wheel_radius := 0.2413
  wheel_base := 2.8498
  steer_ratio := 14.8
  max_lat_accel := 3
  max_steer_angle := 8
  min_speed := 1

/-- The keyword arguments passed to `Controller(**controller_args)`
(lines 61-72 of the source): ten entries, listed in source order. -/
structure ControllerArgs where
  wheel_base : ℚ
  steer_ratio : ℚ
  min_speed : ℚ
  max_lat_accel : ℚ
  max_steer_angle : ℚ
  decel_limit : ℚ
  accel_limit : ℚ
  vehicle_mass : ℚ
  wheel_radius : ℚ
  brake_deadband : ℚ
deriving DecidableEq, Repr

/-- Builds the `controller_args` dictionary from the parameters, field for
field as the source does. -/
def controller_args (p : Params) : ControllerArgs where
  wheel_base := p.wheel_base
  steer_ratio := p.steer_ratio
  min_speed := p.min_speed
  max_lat_accel := p.max_lat_accel
  max_steer_angle := p.max_steer_angle
  decel_limit := p.decel_limit
  accel_limit := p.accel_limit
  vehicle_mass := p.vehicle_mass
  wheel_radius := p.wheel_radius
  brake_deadband := p.brake_deadband

/-- The keyword arguments of one `self.controller.control(**control_args)`
call (lines 108-117 of the source), in source order. -/
structure ControlArgs where
  target_vel : ℚ
  curr_vel : ℚ
  target_ang_vel : ℚ
  curr_ang_vel : ℚ
  dbw_enabled : Bool
  curr_angle : ℚ
  cte : ℚ
  elapsed : ℚ
deriving DecidableEq, Repr, Inhabited

/-- The pedal-command-type tags of the `dbw_mkz_msgs` messages.  The node
uses `ThrottleCmd.CMD_PERCENT` and `BrakeCmd.CMD_TORQUE`. -/
inductive PedalCmdType where
  | CMD_NONE
  | CMD_PEDAL
  | CMD_PERCENT
  | CMD_TORQUE
deriving DecidableEq, Repr, Inhabited

/-- `ThrottleCmd` message; field defaults model a freshly constructed
`ThrottleCmd()`. -/
structure ThrottleCmd where
  enable : Bool := false
  pedal_cmd_type : PedalCmdType := PedalCmdType.CMD_NONE
  pedal_cmd : ℚ := 0
deriving DecidableEq, Repr, Inhabited

/-- The constant `ThrottleCmd.CMD_PERCENT`. -/
def ThrottleCmd.CMD_PERCENT : PedalCmdType := PedalCmdType.CMD_PERCENT

/-- `SteeringCmd` message; defaults model a fresh `SteeringCmd()`. -/
structure SteeringCmd where
  enable : Bool := false
  steering_wheel_angle_cmd : ℚ := 0
deriving DecidableEq, Repr, Inhabited

/-- `BrakeCmd` message; defaults model a fresh `BrakeCmd()`. -/
structure BrakeCmd where
  enable : Bool := false
  pedal_cmd_type : PedalCmdType := PedalCmdType.CMD_NONE
  pedal_cmd : ℚ := 0
deriving DecidableEq, Repr, Inhabited

/-- The constant `BrakeCmd.CMD_TORQUE`. -/
def BrakeCmd.CMD_TORQUE : PedalCmdType := PedalCmdType.CMD_TORQUE

/-- The mutable attributes of a `DBWNode` instance set in `__init__`
(lines 75-85).  `final_waypoints_cb_attr` models the *instance attribute*
named `final_waypoints_cb`: in Python, `self.final_waypoints_cb = msg.waypoints`
inside the handler creates an instance attribute that shadows the bound
method of the same name; `none` means the attribute does not exist yet (the
name still resolves to the class method), `some w` means it was overwritten
with a waypoint list. -/
structure DBWState where
  dbw_enabled : Bool
  curr_vel : ℚ
  curr_ang_vel : ℚ
  target_vel : ℚ
  target_ang_vel : ℚ
  current_pose : Option ℚ
  final_waypoints : Option (List ℚ)
  final_waypoints_cb_attr : Option (List ℚ)
  last_timestamp : ℚ
  curr_angle : ℚ
  cte : ℚ
  count : ℕ
deriving DecidableEq, Repr

/-- The state right after `__init__` (lines 75-85): `dbw_enabled` defaults
true, the numeric caches default `0.0`, pose and waypoints default `None`,
and `last_timestamp` is the startup clock reading `t0`. -/
def initState (t0 : ℚ) : DBWState where
  dbw_enabled := true
  curr_vel := 0
  curr_ang_vel := 0
  target_vel := 0
  target_ang_vel := 0
  current_pose := none
  final_waypoints := none
  final_waypoints_cb_attr := none
  last_timestamp := t0
  curr_angle := 0
  cte := 0
  count := 0

/-- `dbw_enabled_cb`: `self.dbw_enabled = bool(msg.data)`. -/
def dbw_enabled_cb (s : DBWState) (data : Bool) : DBWState :=
  { s with dbw_enabled := data }

/-- `twist_cmd_cb`: stores `msg.twist.linear.x` and `msg.twist.angular.z`. -/
def twist_cmd_cb (s : DBWState) (lin ang : ℚ) : DBWState :=
  { s with target_vel := lin, target_ang_vel := ang }

/-- `current_velocity_cb`: stores `msg.twist.linear.x` and
`msg.twist.angular.z`. -/
def current_velocity_cb (s : DBWState) (lin ang : ℚ) : DBWState :=
  { s with curr_vel := lin, curr_ang_vel := ang }

/-- `current_pose_cb`: `self.current_pose = msg.pose`. -/
def current_pose_cb (s : DBWState) (pose : ℚ) : DBWState :=
  { s with current_pose := some pose }

/-- `cte_cb`: `self.cte = msg.data`. -/
def cte_cb (s : DBWState) (data : ℚ) : DBWState :=
  { s with cte := data }

/-- `final_waypoints_cb`: the body is `self.final_waypoints_cb = msg.waypoints`,
which assigns to the instance attribute shadowing the handler itself and
never touches `self.final_waypoints`. -/
def final_waypoints_cb (s : DBWState) (waypoints : List ℚ) : DBWState :=
  { s with final_waypoints_cb_attr := some waypoints }

/-- `current_angle_cb`: `self.curr_angle = msg.steering_wheel_angle`. -/
def current_angle_cb (s : DBWState) (angle : ℚ) : DBWState :=
  { s with curr_angle := angle }

/-- Builds the `control_args` dictionary of one loop iteration from the
state (after `self.last_timestamp = now`) and the computed `elapsed`. -/
def control_args (s : DBWState) (elapsed : ℚ) : ControlArgs where
  target_vel := s.target_vel
  curr_vel := s.curr_vel
  target_ang_vel := s.target_ang_vel
  curr_ang_vel := s.curr_ang_vel
  dbw_enabled := s.dbw_enabled
  curr_angle := s.curr_angle
  cte := s.cte
  elapsed := elapsed

/-- `DBWNode.publish` (lines 129-149): increments `self.count` and sends one
throttle command (`enable=True`, `CMD_PERCENT`, `pedal_cmd=throttle`), one
steering command (`enable=True`, `steering_wheel_angle_cmd=steer`) and one
brake command (`enable=True`, `CMD_TORQUE`, `pedal_cmd=brake`). -/
def publish (s : DBWState) (throttle brake steer : ℚ) :
    DBWState × (ThrottleCmd × SteeringCmd × BrakeCmd) :=
  ({ s with count := s.count + 1 },
   ({ enable := true, pedal_cmd_type := ThrottleCmd.CMD_PERCENT,
      pedal_cmd := throttle },
    { enable := true, steering_wheel_angle_cmd := steer },
    { enable := true, pedal_cmd_type := BrakeCmd.CMD_TORQUE,
      pedal_cmd := brake }))

/-- The opaque `Controller.control` collaborator: maps the control
arguments to `(throttle, brake, angle)`. -/
abbrev Controller := ControlArgs → ℚ × ℚ × ℚ

/-- The messages a tick can emit: at most one triple, one command per
outbound channel (throttle, steering, brake). -/
structure TickOut where
  args : ControlArgs
  cmds : Option (ThrottleCmd × SteeringCmd × BrakeCmd)
deriving DecidableEq, Repr, Inhabited

/-- One iteration of `DBWNode.loop` (lines 101-127): read the clock, compute
`elapsed`, store `now` in `last_timestamp`, call the controller, and publish
the three commands only when `self.dbw_enabled` holds; otherwise no outbound
message at all. -/
def tick (ctrl : Controller) (s : DBWState) (now : ℚ) : DBWState × TickOut :=
  let s1 : DBWState := { s with last_timestamp := now }
  let args : ControlArgs := control_args s1 (now - s.last_timestamp)
  let tba := ctrl args
  if s1.dbw_enabled then
    let p := publish s1 tba.1 tba.2.1 tba.2.2
    (p.1, ⟨args, some p.2⟩)
  else
    (s1, ⟨args, none⟩)

/-- One inbound message with its payload, one constructor per subscribed
channel. -/
inductive Msg where
  | twist (lin ang : ℚ)
  | currentVelocity (lin ang : ℚ)
  | dbwEnabled (data : Bool)
  | finalWaypoints (waypoints : List ℚ)
  | currentPose (pose : ℚ)
  | steeringReport (angle : ℚ)
  | cteMsg (data : ℚ)
deriving DecidableEq, Repr

/-- Dispatches a message to its callback, as the subscriptions of
`__init__` (lines 88-94) wire them. -/
def applyMsg (s : DBWState) : Msg → DBWState
  | Msg.twist lin ang => twist_cmd_cb s lin ang
  | Msg.currentVelocity lin ang => current_velocity_cb s lin ang
  | Msg.dbwEnabled data => dbw_enabled_cb s data
  | Msg.finalWaypoints w => final_waypoints_cb s w
  | Msg.currentPose p => current_pose_cb s p
  | Msg.steeringReport a => current_angle_cb s a
  | Msg.cteMsg v => cte_cb s v

/-- One observable event of a run: a message delivery or one loop iteration
whose wall-clock reading is `now`. -/
inductive Event where
  | msg (m : Msg)
  | tickEv (now : ℚ)
deriving DecidableEq, Repr

/-- Runs the node over an event list, returning the final state and the
outputs of the ticks in order. -/
def run (ctrl : Controller) (s : DBWState) : List Event → DBWState × List TickOut
  | [] => (s, [])
  | Event.msg m :: rest => run ctrl (applyMsg s m) rest
  | Event.tickEv now :: rest =>
    let t := tick ctrl s now
    let r := run ctrl t.1 rest
    (r.1, t.2 :: r.2)

/-- The literal rate constant of `rospy.Rate(50)` at line 99. -/
def loopRate : ℕ := 50

/-- The abstract actions one loop iteration performs, in program order:
clock read, controller call, the conditional publish, then `rate.sleep()`
until the next boundary of the `loopRate`-cycles-per-second schedule. -/
inductive LoopAction where
  | readClock
  | callController
  | publishCmds
  | sleepUntilNext (hz : ℕ)
deriving DecidableEq, Repr

/-- The action sequence of one iteration of `DBWNode.loop`, as a function of
the `dbw_enabled` flag it observes. -/
def tickActions (dbw_enabled : Bool) : List LoopAction :=
  [LoopAction.readClock, LoopAction.callController]
    ++ (if dbw_enabled then [LoopAction.publishCmds] else [])
    ++ [LoopAction.sleepUntilNext loopRate]

/-- A controller call that can raise a Python exception. -/
abbrev ControllerE := ControlArgs → Except String (ℚ × ℚ × ℚ)

/-- A publisher `publish` call that can raise (transport failure). -/
abbrev Publisher (α : Type) := α → Except String Unit

/-- `DBWNode.publish` with fallible transport: the three `publish` calls are
made in source order and the loop body wraps none of them in `try`, so the
first failure propagates and the later commands are not sent. -/
def publishE (pubT : Publisher ThrottleCmd) (pubS : Publisher SteeringCmd)
    (pubB : Publisher BrakeCmd) (s : DBWState) (throttle brake steer : ℚ) :
    Except String (DBWState × (ThrottleCmd × SteeringCmd × BrakeCmd)) :=
  let s1 : DBWState := { s with count := s.count + 1 }
  let tcmd : ThrottleCmd :=
    { enable := true, pedal_cmd_type := ThrottleCmd.CMD_PERCENT,
      pedal_cmd := throttle }
  match pubT tcmd with
  | Except.error e => Except.error e
  | Except.ok _ =>
    let scmd : SteeringCmd := { enable := true, steering_wheel_angle_cmd := steer }
    match pubS scmd with
    | Except.error e => Except.error e
    | Except.ok _ =>
      let bcmd : BrakeCmd :=
        { enable := true, pedal_cmd_type := BrakeCmd.CMD_TORQUE,
          pedal_cmd := brake }
      match pubB bcmd with
      | Except.error e => Except.error e
      | Except.ok _ => Except.ok (s1, (tcmd, scmd, bcmd))

/-- One iteration of `DBWNode.loop` with fallible controller and transport.
The loop body (lines 101-127) contains no `try`/`except`, so any exception
from the controller call or a publish leaves the iteration as an error. -/
def tickE (ctrl : ControllerE) (pubT : Publisher ThrottleCmd)
    (pubS : Publisher SteeringCmd) (pubB : Publisher BrakeCmd)
    (s : DBWState) (now : ℚ) : Except String (DBWState × TickOut) :=
  let s1 : DBWState := { s with last_timestamp := now }
  let args : ControlArgs := control_args s1 (now - s.last_timestamp)
  match ctrl args with
  | Except.error e => Except.error e
  | Except.ok tba =>
    if s1.dbw_enabled then
      match publishE pubT pubS pubB s1 tba.1 tba.2.1 tba.2.2 with
      | Except.error e => Except.error e
      | Except.ok p => Except.ok (p.1, ⟨args, some p.2⟩)
    else
      Except.ok (s1, ⟨args, none⟩)

/-- Runs the node with fallible controller and transport.  Because
`DBWNode.loop` catches nothing, an exception in one iteration escapes the
`while` loop and no later event is processed. -/
def runE (ctrl : ControllerE) (pubT : Publisher ThrottleCmd)
    (pubS : Publisher SteeringCmd) (pubB : Publisher BrakeCmd)
    (s : DBWState) : List Event → Except String (DBWState × List TickOut)
  | [] => Except.ok (s, [])
  | Event.msg m :: rest => runE ctrl pubT pubS pubB (applyMsg s m) rest
  | Event.tickEv now :: rest =>
    match tickE ctrl pubT pubS pubB s now with
    | Except.error e => Except.error e
    | Except.ok t =>
      match runE ctrl pubT pubS pubB t.1 rest with
      | Except.error e => Except.error e
      | Except.ok r => Except.ok (r.1, t.2 :: r.2)

/-- A concrete controller for witnesses: always `(0, 0, 0)`. -/
def ctrl0 : Controller := fun _ => (0, 0, 0)

/-- A controller that raises on every call. -/
def ctrlBoom : ControllerE := fun _ => Except.error "boom"

/-- A controller that never raises, returning `(0, 0, 0)`. -/
def ctrlOkE : ControllerE := fun _ => Except.ok (0, 0, 0)

/-- A publisher that always succeeds. -/
def pubOk {α : Type} : Publisher α := fun _ => Except.ok ()

/-- Removes every current-pose message from an event list: two runs whose
event lists agree after this filter differ only in pose traffic. -/
def filterPose : List Event → List Event
  | [] => []
  | Event.msg (Msg.currentPose _) :: rest => filterPose rest
  | e :: rest => e :: filterPose rest

/-- Erases the pose cache of a state. -/
def scrubPose (s : DBWState) : DBWState := { s with current_pose := none }

/-- C1: a tick whose snapshot has the override flag false publishes nothing
on any outbound channel, whatever the controller returned: the output is
absent, not zeroed. -/
theorem override_disabled_no_publish (ctrl : Controller) (s : DBWState)
    (now : ℚ) (h : s.dbw_enabled = false) : (tick ctrl s now).2.cmds = none := by
  simp [tick, h]

/-- Witness for C1 at a concrete disabled state. -/
theorem override_disabled_no_publish_w :
    (tick ctrl0 (dbw_enabled_cb (initState 0) false) 1).2.cmds = none :=
  override_disabled_no_publish ctrl0 (dbw_enabled_cb (initState 0) false) 1 rfl

/-- C2: a tick whose snapshot has the override flag true publishes exactly
one message per outbound channel: the throttle command enabled and tagged
`CMD_PERCENT` carrying the controller throttle, the steering command enabled
carrying the steering-wheel angle, and the brake command enabled and tagged
`CMD_TORQUE` carrying the brake value. -/
theorem override_enabled_publishes (ctrl : Controller) (s : DBWState)
    (now : ℚ) (h : s.dbw_enabled = true) :
    (tick ctrl s now).2.cmds = some
      ({ enable := true, pedal_cmd_type := ThrottleCmd.CMD_PERCENT,
         pedal_cmd :=
           (ctrl (control_args { s with last_timestamp := now }
             (now - s.last_timestamp))).1 },
       { enable := true,
         steering_wheel_angle_cmd :=
           (ctrl (control_args { s with last_timestamp := now }
             (now - s.last_timestamp))).2.2 },
       { enable := true, pedal_cmd_type := BrakeCmd.CMD_TORQUE,
         pedal_cmd :=
           (ctrl (control_args { s with last_timestamp := now }
             (now - s.last_timestamp))).2.1 }) := by
  simp [tick, publish, h]

/-- Witness for C2 at the startup state, whose flag defaults true. -/
theorem override_enabled_publishes_w :
    (tick ctrl0 (initState 0) 1).2.cmds = some
      ({ enable := true, pedal_cmd_type := ThrottleCmd.CMD_PERCENT,
         pedal_cmd :=
           (ctrl0 (control_args { initState 0 with last_timestamp := 1 }
             (1 - (initState 0).last_timestamp))).1 },
       { enable := true,
         steering_wheel_angle_cmd :=
           (ctrl0 (control_args { initState 0 with last_timestamp := 1 }
             (1 - (initState 0).last_timestamp))).2.2 },
       { enable := true, pedal_cmd_type := BrakeCmd.CMD_TORQUE,
         pedal_cmd :=
           (ctrl0 (control_args { initState 0 with last_timestamp := 1 }
             (1 - (initState 0).last_timestamp))).2.1 }) :=
  override_enabled_publishes ctrl0 (initState 0) 1 rfl

/-- C3 counterexample: the clock `rospy.rostime.get_time()` is ROS
wall-clock time and the loop places no guard on it, so a backward clock step
(reading 5 after a stored timestamp of 10) makes the elapsed value passed to
the controller negative, refuting `elapsed ≥ 0`. -/
theorem elapsed_nonneg_cex :
    (tick ctrl0 (initState 10) 5).2.args.elapsed < 0 := by
  norm_num [tick, control_args, initState, ctrl0, publish]

/-- C3 amended: each tick passes `elapsed = now - last_timestamp` to the
controller and then stores `now` as the new `last_timestamp`; `elapsed ≥ 0`
holds only under the extra assumption that the clock reading did not go
backwards, which the wall-clock source does not guarantee. -/
theorem elapsed_update_spec (ctrl : Controller) (s : DBWState) (now : ℚ) :
    (tick ctrl s now).2.args.elapsed = now - s.last_timestamp
    ∧ (tick ctrl s now).1.last_timestamp = now
    ∧ (s.last_timestamp ≤ now → 0 ≤ (tick ctrl s now).2.args.elapsed) := by
  refine ⟨?_, ?_, ?_⟩
  · cases h : s.dbw_enabled <;> simp [tick, control_args, publish, h]
  · cases h : s.dbw_enabled <;> simp [tick, publish, h]
  · intro hle
    cases h : s.dbw_enabled <;> simp [tick, control_args, publish, h] <;> linarith

/-- Witness for C3 amended at a concrete non-decreasing clock step. -/
theorem elapsed_update_spec_w :
    (tick ctrl0 (initState 0) 1).2.args.elapsed = 1 - (initState 0).last_timestamp
    ∧ (tick ctrl0 (initState 0) 1).1.last_timestamp = 1
    ∧ 0 ≤ (tick ctrl0 (initState 0) 1).2.args.elapsed :=
  ⟨(elapsed_update_spec ctrl0 (initState 0) 1).1,
   (elapsed_update_spec ctrl0 (initState 0) 1).2.1,
   (elapsed_update_spec ctrl0 (initState 0) 1).2.2 (by norm_num [initState])⟩

/-- C5 counterexample: two parameter sets that differ only in
`fuel_capacity` produce the same controller arguments, so `fuel_capacity`
is read but never forwarded to the Controller — the claim that every one of
the eleven parameters is forwarded verbatim is false. -/
theorem fuel_capacity_not_forwarded_cex :
    controller_args { defaultParams with fuel_capacity := 999 }
      = controller_args defaultParams := rfl

/-- C5 amended: the eleven parameters are read with the documented defaults
and ten of them are forwarded verbatim to the Controller; `fuel_capacity` is
read but not forwarded (changing it cannot change the controller
arguments), and the loop itself takes no parameter at all. -/
theorem params_forwarded (p : Params) (c : ℚ) :
    (controller_args p).wheel_base = p.wheel_base
    ∧ (controller_args p).steer_ratio = p.steer_ratio
    ∧ (controller_args p).min_speed = p.min_speed
    ∧ (controller_args p).max_lat_accel = p.max_lat_accel
    ∧ (controller_args p).max_steer_angle = p.max_steer_angle
    ∧ (controller_args p).decel_limit = p.decel_limit
    ∧ (controller_args p).accel_limit = p.accel_limit
    ∧ (controller_args p).vehicle_mass = p.vehicle_mass
    ∧ (controller_args p).wheel_radius = p.wheel_radius
    ∧ (controller_args p).brake_deadband = p.brake_deadband
    ∧ controller_args { p with fuel_capacity := c } = controller_args p
    ∧ defaultParams
        = ⟨1736.35, 13.5, 0.1, -5, 1, 0.2413, 2.8498, 14.8, 3, 8, 1⟩ :=
  ⟨rfl, rfl, rfl, rfl, rfl, rfl, rfl, rfl, rfl, rfl, rfl, rfl⟩

/-- C4 counterexample: with a controller that raises, the run over two tick
events stops with the error after the first tick — the exception is not
caught inside the loop, the loop does not continue to the second tick, so
the claim that per-tick failures are caught and the loop continues is
false. -/
theorem tick_error_escapes_cex :
    runE ctrlBoom pubOk pubOk pubOk (initState 0) [Event.tickEv 1, Event.tickEv 2]
      = Except.error "boom" := rfl

/-- C4 amended: the loop body contains no exception handler, so a failure
raised during a tick (controller call or publish) propagates out of the loop
body unchanged and no later event of the run is processed. -/
theorem tick_error_propagates (ctrl : ControllerE) (pubT : Publisher ThrottleCmd)
    (pubS : Publisher SteeringCmd) (pubB : Publisher BrakeCmd) (s : DBWState)
    (now : ℚ) (rest : List Event) (e : String)
    (h : tickE ctrl pubT pubS pubB s now = Except.error e) :
    runE ctrl pubT pubS pubB s (Event.tickEv now :: rest) = Except.error e := by
  simp [runE, h]

/-- Witness for C4 amended with a concrete raising controller. -/
theorem tick_error_propagates_w :
    runE ctrlBoom pubOk pubOk pubOk (initState 0) [Event.tickEv 1]
      = Except.error "boom" :=
  tick_error_propagates ctrlBoom pubOk pubOk pubOk (initState 0) 1 [] "boom" rfl

/-- C6: the loop rate is the program constant 50 cycles per second (a 20 ms
period) and every iteration, enabled or not, ends with the sleep to the next
boundary of that 50 Hz schedule. -/
theorem loop_rate_fixed :
    loopRate = 50 ∧ 1000 / loopRate = 20
    ∧ ∀ b : Bool,
        (tickActions b).getLast? = some (LoopAction.sleepUntilNext 50) := by
  refine ⟨rfl, rfl, ?_⟩
  intro b
  cases b <;> rfl

/-- Over a run made of ticks only, every tick output keeps the startup cache
values: the cached fields are never written by `tick`, so they stay zero and
the flag stays true. -/
theorem run_ticks_zero (ctrl : Controller) (s : DBWState) (times : List ℚ)
    (hs : s.target_vel = 0 ∧ s.curr_vel = 0 ∧ s.target_ang_vel = 0
      ∧ s.curr_ang_vel = 0 ∧ s.curr_angle = 0 ∧ s.cte = 0
      ∧ s.dbw_enabled = true) :
    ∀ o ∈ (run ctrl s (times.map Event.tickEv)).2,
      o.args.target_vel = 0 ∧ o.args.curr_vel = 0 ∧ o.args.target_ang_vel = 0
      ∧ o.args.curr_ang_vel = 0 ∧ o.args.curr_angle = 0 ∧ o.args.cte = 0
      ∧ o.args.dbw_enabled = true ∧ o.cmds.isSome = true := by
  induction times generalizing s with
  | nil => intro o ho; simp [run] at ho
  | cons t ts ih =>
    obtain ⟨h1, h2, h3, h4, h5, h6, h7⟩ := hs
    intro o ho
    simp only [List.map_cons, run, List.mem_cons] at ho
    rcases ho with rfl | ho
    · simp [tick, control_args, publish, h1, h2, h3, h4, h5, h6, h7]
    · refine ih (tick ctrl s t).1 ?_ o ho
      simp [tick, publish, h1, h2, h3, h4, h5, h6, h7]

/-- C7: if no inbound message is ever received, every tick invokes the
controller with all-zero targets, velocities, steering angle and
cross-track error, with the enabled flag still at its startup default true,
and every tick publishes on all three outbound channels. -/
theorem no_input_scenario (ctrl : Controller) (t0 : ℚ) (times : List ℚ) :
    ∀ o ∈ (run ctrl (initState t0) (times.map Event.tickEv)).2,
      o.args.target_vel = 0 ∧ o.args.curr_vel = 0 ∧ o.args.target_ang_vel = 0
      ∧ o.args.curr_ang_vel = 0 ∧ o.args.curr_angle = 0 ∧ o.args.cte = 0
      ∧ o.args.dbw_enabled = true ∧ o.cmds.isSome = true :=
  run_ticks_zero ctrl (initState t0) times ⟨rfl, rfl, rfl, rfl, rfl, rfl, rfl⟩

/-- Witness for C7 on a concrete one-tick run. -/
theorem no_input_scenario_w :
    (run ctrl0 (initState 0) ([1].map Event.tickEv)).2.head!.args.target_vel = 0
    ∧ (run ctrl0 (initState 0) ([1].map Event.tickEv)).2.head!.args.curr_vel = 0
    ∧ (run ctrl0 (initState 0) ([1].map Event.tickEv)).2.head!.args.target_ang_vel = 0
    ∧ (run ctrl0 (initState 0) ([1].map Event.tickEv)).2.head!.args.curr_ang_vel = 0
    ∧ (run ctrl0 (initState 0) ([1].map Event.tickEv)).2.head!.args.curr_angle = 0
    ∧ (run ctrl0 (initState 0) ([1].map Event.tickEv)).2.head!.args.cte = 0
    ∧ (run ctrl0 (initState 0) ([1].map Event.tickEv)).2.head!.args.dbw_enabled = true
    ∧ (run ctrl0 (initState 0) ([1].map Event.tickEv)).2.head!.cmds.isSome = true := by
  have hne : (run ctrl0 (initState 0) ([1].map Event.tickEv)).2 ≠ [] := by
    simp [run]
  exact no_input_scenario ctrl0 0 [1] _ (List.head!_mem_self hne)

/-- Decomposition of a run over concatenated event lists: the outputs of the
prefix depend on the prefix alone. -/
theorem run_append (ctrl : Controller) (s : DBWState) (l1 l2 : List Event) :
    run ctrl s (l1 ++ l2)
      = ((run ctrl (run ctrl s l1).1 l2).1,
         (run ctrl s l1).2 ++ (run ctrl (run ctrl s l1).1 l2).2) := by
  induction l1 generalizing s with
  | nil => simp [run]
  | cons e rest ih =>
    cases e with
    | msg m => simp [run, ih]
    | tickEv now => simp [run, ih]

/-- C8: a message delivered between two ticks is visible exactly from the
next tick on — the outputs before the delivery are those of the prefix run
and do not depend on the message, while the tick right after it runs on the
updated state; in particular an override-flag message `true` makes that very
tick publish. -/
theorem update_visible_next_tick (ctrl : Controller) (s0 : DBWState)
    (pre rest : List Event) (m : Msg) (now : ℚ) :
    (run ctrl s0 (pre ++ Event.msg m :: Event.tickEv now :: rest)).2
      = (run ctrl s0 pre).2
        ++ (tick ctrl (applyMsg (run ctrl s0 pre).1 m) now).2
          :: (run ctrl (tick ctrl (applyMsg (run ctrl s0 pre).1 m) now).1 rest).2
    ∧ (m = Msg.dbwEnabled true →
        ((tick ctrl (applyMsg (run ctrl s0 pre).1 m) now).2.cmds).isSome
          = true) := by
  constructor
  · rw [run_append]
    simp [run]
  · rintro rfl
    simp [applyMsg, dbw_enabled_cb, tick, publish]

/-- Witness for C8: enabling the override right before a tick makes that
tick publish, starting from a state where the flag was false. -/
theorem update_visible_next_tick_w :
    ((tick ctrl0
        (applyMsg (run ctrl0 (dbw_enabled_cb (initState 0) false) []).1
          (Msg.dbwEnabled true)) 1).2.cmds).isSome = true :=
  (update_visible_next_tick ctrl0 (dbw_enabled_cb (initState 0) false) [] []
    (Msg.dbwEnabled true) 1).2 rfl

/-- No event ever writes `final_waypoints`: the waypoints handler stores
into the shadowing attribute instead, and no other operation touches the
field. -/
theorem final_waypoints_invariant (ctrl : Controller) (s : DBWState)
    (evs : List Event) (hs : s.final_waypoints = none) :
    (run ctrl s evs).1.final_waypoints = none := by
  have hm : ∀ (st : DBWState) (m : Msg),
      (applyMsg st m).final_waypoints = st.final_waypoints := by
    intro st m; cases m <;> rfl
  have ht : ∀ (st : DBWState) (now : ℚ),
      (tick ctrl st now).1.final_waypoints = st.final_waypoints := by
    intro st now
    cases h : st.dbw_enabled <;> simp [tick, publish, h]
  induction evs generalizing s with
  | nil => simpa [run] using hs
  | cons e rest ih =>
    cases e with
    | msg m =>
      simp only [run]
      exact ih (applyMsg s m) ((hm s m).trans hs)
    | tickEv now =>
      simp only [run]
      exact ih (tick ctrl s now).1 ((ht s now).trans hs)

/-- C9: the waypoints handler assigns into the attribute that shadows the
handler itself, never into `final_waypoints`, so `final_waypoints` is `none`
in every reachable state and the waypoints channel never delivers data to
the node state. -/
theorem waypoints_channel_broken (ctrl : Controller) (t0 : ℚ)
    (evs : List Event) :
    (run ctrl (initState t0) evs).1.final_waypoints = none
    ∧ ∀ (s : DBWState) (w : List ℚ),
        (final_waypoints_cb s w).final_waypoints = s.final_waypoints
        ∧ (final_waypoints_cb s w).final_waypoints_cb_attr = some w :=
  ⟨final_waypoints_invariant ctrl (initState t0) evs rfl,
   fun _ _ => ⟨rfl, rfl⟩⟩

/-- Erasing the pose cache and dropping the pose messages changes neither
the tick outputs nor any other state field: nothing in the loop reads
`current_pose`. -/
theorem run_scrubPose (ctrl : Controller) (s : DBWState) (evs : List Event) :
    (run ctrl (scrubPose s) (filterPose evs)).1 = scrubPose (run ctrl s evs).1
    ∧ (run ctrl (scrubPose s) (filterPose evs)).2 = (run ctrl s evs).2 := by
  induction evs generalizing s with
  | nil => exact ⟨rfl, rfl⟩
  | cons e rest ih =>
    cases e with
    | msg m =>
      cases m with
      | currentPose p =>
        simpa only [filterPose, run, applyMsg] using ih (current_pose_cb s p)
      | twist lin ang =>
        simpa only [filterPose, run, applyMsg] using ih (twist_cmd_cb s lin ang)
      | currentVelocity lin ang =>
        simpa only [filterPose, run, applyMsg]
          using ih (current_velocity_cb s lin ang)
      | dbwEnabled data =>
        simpa only [filterPose, run, applyMsg] using ih (dbw_enabled_cb s data)
      | finalWaypoints w =>
        simpa only [filterPose, run, applyMsg] using ih (final_waypoints_cb s w)
      | steeringReport a =>
        simpa only [filterPose, run, applyMsg] using ih (current_angle_cb s a)
      | cteMsg v =>
        simpa only [filterPose, run, applyMsg] using ih (cte_cb s v)
    | tickEv now =>
      have ht1 : (tick ctrl (scrubPose s) now).1 = scrubPose (tick ctrl s now).1 := by
        cases h : s.dbw_enabled <;> simp [tick, publish, scrubPose, h]
      have ht2 : (tick ctrl (scrubPose s) now).2 = (tick ctrl s now).2 := by
        cases h : s.dbw_enabled <;> simp [tick, publish, scrubPose, control_args, h]
      simp only [filterPose, run]
      refine ⟨?_, ?_⟩
      · rw [ht1]
        exact (ih (tick ctrl s now).1).1
      · rw [ht1, ht2]
        exact congrArg (fun l => (tick ctrl s now).2 :: l) (ih (tick ctrl s now).1).2

/-- C10: two executions from the same state whose event lists agree once
pose messages are removed produce identical tick outputs — identical
controller arguments and identical published command sequences; the pose
handler writes only the `current_pose` field. -/
theorem pose_noninterference (ctrl : Controller) (s : DBWState)
    (evs1 evs2 : List Event) (h : filterPose evs1 = filterPose evs2) :
    (run ctrl s evs1).2 = (run ctrl s evs2).2
    ∧ ∀ (st : DBWState) (p : ℚ),
        current_pose_cb st p = { st with current_pose := some p } := by
  constructor
  · calc (run ctrl s evs1).2
        = (run ctrl (scrubPose s) (filterPose evs1)).2 :=
          (run_scrubPose ctrl s evs1).2.symm
      _ = (run ctrl (scrubPose s) (filterPose evs2)).2 := by rw [h]
      _ = (run ctrl s evs2).2 := (run_scrubPose ctrl s evs2).2
  · intro st p
    rfl

/-- Witness for C10: inserting a pose message before a tick leaves the tick
output unchanged. -/
theorem pose_noninterference_w :
    (run ctrl0 (initState 0)
        [Event.msg (Msg.currentPose 7), Event.tickEv 1]).2
      = (run ctrl0 (initState 0) [Event.tickEv 1]).2 :=
  (pose_noninterference ctrl0 (initState 0)
    [Event.msg (Msg.currentPose 7), Event.tickEv 1] [Event.tickEv 1] rfl).1

end DBW
